import Mathlib

/-!
# Verification of the liquid-wlan frame synchronizer (`wlanframesync.c`)

Shallow embedding of the WLAN frame synchronizer found in
`src/wlanframesync.c`, together with the Annex G Table G.3 reference
data.  Machine `float complex` values are modelled as pairs of exact
rationals; the external collaborators (the 64-point DFT provider and
the numerically-controlled oscillator's phase-to-phasor map, which live
outside this repository) are modelled as parameters gathered in an
environment record.
-/

/-- Complex number over exact rationals, modelling C `float complex`. -/
structure Cplx where
  re : ℚ
  im : ℚ
deriving DecidableEq, Repr

instance : Zero Cplx := ⟨⟨0, 0⟩⟩

instance : Add Cplx := ⟨fun a b => ⟨a.re + b.re, a.im + b.im⟩⟩

instance : Mul Cplx := ⟨fun a b => ⟨a.re * b.re - a.im * b.im, a.re * b.im + a.im * b.re⟩⟩

/-- Complex conjugate, modelling C `conjf`. -/
def Cplx.conj (a : Cplx) : Cplx := ⟨a.re, -a.im⟩

/-- Multiplication by a real scalar, modelling C `complex * float`. -/
def Cplx.scale (g : ℚ) (a : Cplx) : Cplx := ⟨g * a.re, g * a.im⟩

/-- Squared magnitude, computed as `crealf(x)*crealf(x) + cimagf(x)*cimagf(x)`
in the C source. -/
def Cplx.normSq (a : Cplx) : ℚ := a.re * a.re + a.im * a.im

@[simp] theorem Cplx.add_re (a b : Cplx) : (a + b).re = a.re + b.re := rfl

@[simp] theorem Cplx.add_im (a b : Cplx) : (a + b).im = a.im + b.im := rfl

@[simp] theorem Cplx.mul_re (a b : Cplx) : (a * b).re = a.re * b.re - a.im * b.im := rfl

@[simp] theorem Cplx.mul_im (a b : Cplx) : (a * b).im = a.re * b.im + a.im * b.re := rfl

@[simp] theorem Cplx.conj_re (a : Cplx) : a.conj.re = a.re := rfl

@[simp] theorem Cplx.conj_im (a : Cplx) : a.conj.im = -a.im := rfl

@[simp] theorem Cplx.scale_re (g : ℚ) (a : Cplx) : (a.scale g).re = g * a.re := rfl

@[simp] theorem Cplx.scale_im (g : ℚ) (a : Cplx) : (a.scale g).im = g * a.im := rfl

@[simp] theorem Cplx.zero_re : (0 : Cplx).re = 0 := rfl

@[simp] theorem Cplx.zero_im : (0 : Cplx).im = 0 := rfl

@[ext] theorem Cplx.ext {a b : Cplx} (hre : a.re = b.re) (him : a.im = b.im) : a = b := by
  cases a; cases b; simp_all

/-- The seven states of the receiver state machine
(`enum` inside `struct wlanframesync_s`). -/
inductive WlanState where
  | SEEKPLCP    -- seek initial PLCP
  | RXSHORT0    -- receive first short sequence
  | RXSHORT1    -- receive second short sequence
  | RXLONG0     -- receive first long sequence
  | RXLONG1     -- receive second long sequence
  | RXSIGNAL    -- receive SIGNAL field
  | RXDATA      -- receive DATA field
deriving DecidableEq, Repr

/-- External collaborators of the synchronizer, out of the repository's
scope: the forward 64-point DFT provider (`FFT_EXECUTE`), the NCO
mix-down map (`nco_crcf_mix_down`, multiplication of the sample by the
oscillator phasor at the current phase), and the frequency-domain short
training sequence table `wlanframe_S0` (declared `extern` in the header,
values defined outside the given sources). -/
structure WlanEnv where
  dft : (Fin 64 → Cplx) → (Fin 64 → Cplx)
  mixDown : ℚ → Cplx → Cplx
  S0 : Fin 64 → Cplx

/-- The mutable state of `struct wlanframesync_s` that the given sources
touch: machine state, sample timer, the 80-sample input window, the NCO
phase and frequency (`nco_rx`), the short-sequence gain `G0a`, and a
count of user-callback invocations (the sources never invoke the
callback). -/
structure Wlansync where
  state : WlanState
  timer : ℤ
  input_buffer : List Cplx
  nco_theta : ℚ
  nco_dtheta : ℚ
  G0a : Fin 64 → Cplx
  ncallbacks : ℕ

/-- `windowcf_push`: append the sample, dropping the oldest entry. -/
def windowcf_push (buf : List Cplx) (x : Cplx) : List Cplx :=
  buf.drop 1 ++ [x]

/-- The twelve non-null bins of the frequency-domain short training
sequence S0. -/
def s0bins : List (Fin 64) := [4, 8, 12, 16, 20, 24, 40, 44, 48, 52, 56, 60]

/-- The gain constant of `wlanframesync_estimate_gain_S0`: the literal
`0.054127f` from the source (its comment reads `sqrt(12)/64`). -/
def s0Gain : ℚ := 54127 / 1000000

/-- Write a single bin of a gain vector (one `_G[k] = ...` assignment). -/
def setBin (G : Fin 64 → Cplx) (k : Fin 64) (v : Cplx) : Fin 64 → Cplx :=
  fun i => if i = k then v else G i

/-- `wlanframesync_estimate_gain_S0`: compute the DFT of the 64 input
samples, clear the gain vector, then set each of the twelve non-null S0
bins to `X[k] * conjf(wlanframe_S0[k]) * gain`, in the order of the
source's assignments. -/
def wlanframesync_estimate_gain_S0 (env : WlanEnv) (x : Fin 64 → Cplx) : Fin 64 → Cplx :=
  let X := env.dft x
  let G : Fin 64 → Cplx := fun _ => 0
  let G := setBin G 40 (X 40 * (env.S0 40).conj * ⟨s0Gain, 0⟩)
  let G := setBin G 44 (X 44 * (env.S0 44).conj * ⟨s0Gain, 0⟩)
  let G := setBin G 48 (X 48 * (env.S0 48).conj * ⟨s0Gain, 0⟩)
  let G := setBin G 52 (X 52 * (env.S0 52).conj * ⟨s0Gain, 0⟩)
  let G := setBin G 56 (X 56 * (env.S0 56).conj * ⟨s0Gain, 0⟩)
  let G := setBin G 60 (X 60 * (env.S0 60).conj * ⟨s0Gain, 0⟩)
  let G := setBin G 4 (X 4 * (env.S0 4).conj * ⟨s0Gain, 0⟩)
  let G := setBin G 8 (X 8 * (env.S0 8).conj * ⟨s0Gain, 0⟩)
  let G := setBin G 12 (X 12 * (env.S0 12).conj * ⟨s0Gain, 0⟩)
  let G := setBin G 16 (X 16 * (env.S0 16).conj * ⟨s0Gain, 0⟩)
  let G := setBin G 20 (X 20 * (env.S0 20).conj * ⟨s0Gain, 0⟩)
  let G := setBin G 24 (X 24 * (env.S0 24).conj * ⟨s0Gain, 0⟩)
  G

/-- `wlanframesync_S0_metrics`: accumulate the ten hard-coded products
`_G[k+4] * conjf(_G[k])` of the source (five per bin cluster) and scale
the sum by `0.1f`. -/
def wlanframesync_S0_metrics (G : Fin 64 → Cplx) : Cplx :=
  let s : Cplx := 0
  let s := s + G 44 * (G 40).conj
  let s := s + G 48 * (G 44).conj
  let s := s + G 52 * (G 48).conj
  let s := s + G 56 * (G 52).conj
  let s := s + G 60 * (G 56).conj
  let s := s + G 8 * (G 4).conj
  let s := s + G 12 * (G 8).conj
  let s := s + G 16 * (G 12).conj
  let s := s + G 20 * (G 16).conj
  let s := s + G 24 * (G 20).conj
  s.scale (1 / 10)

/-- Modelled from the spec: the claimed S0 timing metric, the sum over
all twelve non-null S0 bins of `G0[k+4] * conj(G0[k])`, the bin index
`k+4` wrapping around the 64-bin grid (`Fin 64` addition), "so that
exactly 12 product terms are accumulated".  This follows the spec's
words; the source accumulates ten terms and scales by `0.1f`. -/
def wlanframesync_S0_metrics_spec (G : Fin 64 → Cplx) : Cplx :=
  (s0bins.map (fun k => G (k + 4) * (G k).conj)).sum

/-- The last 64 entries of the 80-sample input window, `&rc[16]`. -/
def window_tail64 (rc : List Cplx) : Fin 64 → Cplx :=
  fun i => rc.getD (16 + i.val) 0

/-- The receive-power normalization of `wlanframesync_execute_seekplcp`:
`g = 64 / (sum of |rc[i]|^2 for i in [16,80) + 1e-6)`, the sum written
over the 64 offsets into the tail of the window. -/
def wlanframesync_seekplcp_g (rc : List Cplx) : ℚ :=
  64 / (((List.finRange 64).foldl (fun a i => a + (window_tail64 rc i).normSq) 0) + 1 / 1000000)

/-- The normalized S0 timing metric computed (and only printed) by
`wlanframesync_execute_seekplcp`: `s_hat = S0_metrics(G0a) * g`. -/
def wlanframesync_seekplcp_s_hat (env : WlanEnv) (rc : List Cplx) : Cplx :=
  (wlanframesync_S0_metrics
      (wlanframesync_estimate_gain_S0 env (window_tail64 rc))).scale
    (wlanframesync_seekplcp_g rc)

/-- `wlanframesync_execute_seekplcp`: advance the timer; every 64th
sample, reset the timer, estimate the S0 gain from the newest 64
buffered samples into `G0a`, and compute (then merely print) the timing
metric `s_hat`.  The source performs no detection test, changes no
state, stores no CFO and never arms the NCO. -/
def wlanframesync_execute_seekplcp (env : WlanEnv) (q : Wlansync) : Wlansync :=
  let q := { q with timer := q.timer + 1 }
  if q.timer < 64 then q
  else
    let q := { q with timer := 0 }
    let rc := q.input_buffer
    let G0a := wlanframesync_estimate_gain_S0 env (window_tail64 rc)
    let _s_hat := wlanframesync_seekplcp_s_hat env rc
    { q with G0a := G0a }

/-- `wlanframesync_execute_rxshort0` (empty body in the source). -/
def wlanframesync_execute_rxshort0 (q : Wlansync) : Wlansync := q

/-- `wlanframesync_execute_rxshort1` (empty body in the source). -/
def wlanframesync_execute_rxshort1 (q : Wlansync) : Wlansync := q

/-- `wlanframesync_execute_rxlong0` (empty body in the source). -/
def wlanframesync_execute_rxlong0 (q : Wlansync) : Wlansync := q

/-- `wlanframesync_execute_rxlong1` (empty body in the source). -/
def wlanframesync_execute_rxlong1 (q : Wlansync) : Wlansync := q

/-- `wlanframesync_execute_rxsignal` (empty body in the source). -/
def wlanframesync_execute_rxsignal (q : Wlansync) : Wlansync := q

/-- `wlanframesync_execute_rxdata` (empty body in the source). -/
def wlanframesync_execute_rxdata (q : Wlansync) : Wlansync := q

/-- The state-dispatch `switch` of `wlanframesync_execute`: each of the
seven enumerated states selects its handler; the C `default` branch
(error print and `exit(1)`) corresponds to `none`. -/
def wlanframesync_dispatch (s : WlanState) : Option (WlanEnv → Wlansync → Wlansync) :=
  match s with
  | .SEEKPLCP => some wlanframesync_execute_seekplcp
  | .RXSHORT0 => some (fun _ q => wlanframesync_execute_rxshort0 q)
  | .RXSHORT1 => some (fun _ q => wlanframesync_execute_rxshort1 q)
  | .RXLONG0 => some (fun _ q => wlanframesync_execute_rxlong0 q)
  | .RXLONG1 => some (fun _ q => wlanframesync_execute_rxlong1 q)
  | .RXSIGNAL => some (fun _ q => wlanframesync_execute_rxsignal q)
  | .RXDATA => some (fun _ q => wlanframesync_execute_rxdata q)

/-- The per-sample front end of `wlanframesync_execute`: when not in
`SEEKPLCP`, mix the sample down by the NCO at the current phase and step
the NCO; then push the (possibly mixed) sample into the input buffer. -/
def wlanframesync_push_sample (env : WlanEnv) (q : Wlansync) (x : Cplx) : Wlansync :=
  if q.state = WlanState.SEEKPLCP then
    { q with input_buffer := windowcf_push q.input_buffer x }
  else
    { q with nco_theta := q.nco_theta + q.nco_dtheta,
             input_buffer := windowcf_push q.input_buffer (env.mixDown q.nco_theta x) }

/-- One iteration of the sample loop of `wlanframesync_execute`,
including the possibly-failing dispatch (`none` models the fatal
`exit(1)` branch). -/
def wlanframesync_step (env : WlanEnv) (q : Wlansync) (x : Cplx) : Option Wlansync :=
  let q := wlanframesync_push_sample env q x
  match wlanframesync_dispatch q.state with
  | some h => some (h env q)
  | none => none

/-- One iteration of the sample loop, total form. -/
def wlanframesync_execute_one (env : WlanEnv) (q : Wlansync) (x : Cplx) : Wlansync :=
  (wlanframesync_step env q x).getD q

/-- `wlanframesync_execute`: the bulk-push entry point; drive the
samples of the buffer one at a time through the state machine. -/
def wlanframesync_execute (env : WlanEnv) (q : Wlansync) : List Cplx → Wlansync
  | [] => q
  | x :: xs => wlanframesync_execute env (wlanframesync_execute_one env q x) xs

/-- `wlanframesync_execute`, with the fatal dispatch failure propagated
as `none` (the C process would `exit(1)`). -/
def wlanframesync_execute_opt (env : WlanEnv) (q : Wlansync) : List Cplx → Option Wlansync
  | [] => some q
  | x :: xs =>
    match wlanframesync_step env q x with
    | some q2 => wlanframesync_execute_opt env q2 xs
    | none => none

/-- `wlanframesync_reset`: clear the input window (`windowcf_clear`),
return to `SEEKPLCP` and zero the sample timer.  The source touches
nothing else (in particular not the NCO). -/
def wlanframesync_reset (q : Wlansync) : Wlansync :=
  { q with input_buffer := List.replicate 80 0,
           state := WlanState.SEEKPLCP,
           timer := 0 }

/-- `wlanframesync_create`: fresh object (zeroed window from
`windowcf_create(80)`, NCO from `nco_crcf_create`), then reset. -/
def wlanframesync_create : Wlansync :=
  wlanframesync_reset
    { state := WlanState.SEEKPLCP
      timer := 0
      input_buffer := List.replicate 80 0
      nco_theta := 0
      nco_dtheta := 0
      G0a := fun _ => 0
      ncallbacks := 0 }

/-- `wlanframesync_get_rssi`: the source returns the constant `0.0f`. -/
def wlanframesync_get_rssi (_q : Wlansync) : ℚ := 0

/-- `wlanframesync_get_cfo`: the source returns the constant `0.0f`. -/
def wlanframesync_get_cfo (_q : Wlansync) : ℚ := 0

/-- One 16-sample period of the Annex G Table G.3 time-domain short
training sequence (the repository's 64-entry array repeats it). -/
def annexg_G3_period : List Cplx :=
  [⟨0.0460, 0.0460⟩, ⟨-0.1320, 0.0020⟩, ⟨-0.0130, -0.0790⟩, ⟨0.1430, -0.0130⟩,
   ⟨0.0920, 0.0000⟩, ⟨0.1430, -0.0130⟩, ⟨-0.0130, -0.0790⟩, ⟨-0.1320, 0.0020⟩,
   ⟨0.0460, 0.0460⟩, ⟨0.0020, -0.1320⟩, ⟨-0.0790, -0.0130⟩, ⟨-0.0130, 0.1430⟩,
   ⟨0.0000, 0.0920⟩, ⟨-0.0130, 0.1430⟩, ⟨-0.0790, -0.0130⟩, ⟨0.0020, -0.1320⟩]

/-- The 64-entry Annex G Table G.3 reference array `annexg_G3`,
transcribed entry by entry from the source. -/
def annexg_G3 : List Cplx :=
  [⟨0.0460, 0.0460⟩, ⟨-0.1320, 0.0020⟩, ⟨-0.0130, -0.0790⟩, ⟨0.1430, -0.0130⟩,
   ⟨0.0920, 0.0000⟩, ⟨0.1430, -0.0130⟩, ⟨-0.0130, -0.0790⟩, ⟨-0.1320, 0.0020⟩,
   ⟨0.0460, 0.0460⟩, ⟨0.0020, -0.1320⟩, ⟨-0.0790, -0.0130⟩, ⟨-0.0130, 0.1430⟩,
   ⟨0.0000, 0.0920⟩, ⟨-0.0130, 0.1430⟩, ⟨-0.0790, -0.0130⟩, ⟨0.0020, -0.1320⟩,
   ⟨0.0460, 0.0460⟩, ⟨-0.1320, 0.0020⟩, ⟨-0.0130, -0.0790⟩, ⟨0.1430, -0.0130⟩,
   ⟨0.0920, 0.0000⟩, ⟨0.1430, -0.0130⟩, ⟨-0.0130, -0.0790⟩, ⟨-0.1320, 0.0020⟩,
   ⟨0.0460, 0.0460⟩, ⟨0.0020, -0.1320⟩, ⟨-0.0790, -0.0130⟩, ⟨-0.0130, 0.1430⟩,
   ⟨0.0000, 0.0920⟩, ⟨-0.0130, 0.1430⟩, ⟨-0.0790, -0.0130⟩, ⟨0.0020, -0.1320⟩,
   ⟨0.0460, 0.0460⟩, ⟨-0.1320, 0.0020⟩, ⟨-0.0130, -0.0790⟩, ⟨0.1430, -0.0130⟩,
   ⟨0.0920, 0.0000⟩, ⟨0.1430, -0.0130⟩, ⟨-0.0130, -0.0790⟩, ⟨-0.1320, 0.0020⟩,
   ⟨0.0460, 0.0460⟩, ⟨0.0020, -0.1320⟩, ⟨-0.0790, -0.0130⟩, ⟨-0.0130, 0.1430⟩,
   ⟨0.0000, 0.0920⟩, ⟨-0.0130, 0.1430⟩, ⟨-0.0790, -0.0130⟩, ⟨0.0020, -0.1320⟩,
   ⟨0.0460, 0.0460⟩, ⟨-0.1320, 0.0020⟩, ⟨-0.0130, -0.0790⟩, ⟨0.1430, -0.0130⟩,
   ⟨0.0920, 0.0000⟩, ⟨0.1430, -0.0130⟩, ⟨-0.0130, -0.0790⟩, ⟨-0.1320, 0.0020⟩,
   ⟨0.0460, 0.0460⟩, ⟨0.0020, -0.1320⟩, ⟨-0.0790, -0.0130⟩, ⟨-0.0130, 0.1430⟩,
   ⟨0.0000, 0.0920⟩, ⟨-0.0130, 0.1430⟩, ⟨-0.0790, -0.0130⟩, ⟨0.0020, -0.1320⟩]

/-!
## Concrete fixtures

A concrete environment and input used to evaluate the synchronizer on a
run where the spec's detection criterion holds: the (external) DFT is
instantiated as an oracle answering `20` on each of the twelve non-null
S0 bins, the S0 table as `1` on those bins, and the NCO mix as the
identity.  The input is 64 unit samples, giving unit average receive
power over the inspected window.
-/

/-- Concrete environment instance. -/
def env0 : WlanEnv :=
  { dft := fun _ k => if k ∈ s0bins then ⟨20, 0⟩ else 0
    mixDown := fun _ x => x
    S0 := fun k => if k ∈ s0bins then ⟨1, 0⟩ else 0 }

/-- 64 unit samples. -/
def ones64 : List Cplx := List.replicate 64 ⟨1, 0⟩

/-- The input window after a freshly reset synchronizer consumed
`ones64`: 16 zeros then 64 unit samples. -/
def buf0 : List Cplx := List.replicate 16 0 ++ List.replicate 64 ⟨1, 0⟩

/-- A 64-sample window of unit samples (argument for the gain
estimator in the counterexample run). -/
def x64ones : Fin 64 → Cplx := fun _ => ⟨1, 0⟩

/-- A synchronizer whose NCO carries phase 1 and frequency 1, as left
by an external actor, used to exercise `wlanframesync_reset`. -/
def syncN : Wlansync :=
  { wlanframesync_create with nco_theta := 1, nco_dtheta := 1 }

/-- A synchronizer in `SEEKPLCP` whose timer is one short of the
64-sample inspection boundary. -/
def syncT : Wlansync :=
  { wlanframesync_create with timer := 63 }

/-!
## General lemmas about the embedding
-/

/-- Pointwise description of the S0 gain estimator: the twelve non-null
bins carry `X[k] * conj(S0[k]) * gain`, every other bin is zero. -/
theorem wlanframesync_estimate_gain_S0_apply (env : WlanEnv) (x : Fin 64 → Cplx)
    (k : Fin 64) :
    wlanframesync_estimate_gain_S0 env x k =
      if k ∈ s0bins then env.dft x k * (env.S0 k).conj * ⟨s0Gain, 0⟩ else 0 := by
  fin_cases k <;> rfl

/-- Folding a constant increment sums to the list length times it. -/
theorem foldl_add_const {α : Type} (l : List α) (c a : ℚ) :
    l.foldl (fun acc _ => acc + c) a = a + l.length * c := by
  induction l generalizing a with
  | nil => simp
  | cons x xs ih => rw [List.foldl_cons, ih, List.length_cons]; push_cast; ring

/-- The tail of the concrete window `buf0` is 64 unit samples. -/
theorem window_tail64_buf0 : window_tail64 buf0 = x64ones := by
  funext i; fin_cases i <;> rfl

/-- Receive-power normalization over `buf0`: unit-power window. -/
theorem seekplcp_g_buf0 : wlanframesync_seekplcp_g buf0 = 64 / (64 + 1 / 1000000) := by
  rw [wlanframesync_seekplcp_g, window_tail64_buf0]
  have h1 : ∀ i : Fin 64, (x64ones i).normSq = 1 := by intro i; simp [x64ones, Cplx.normSq]
  simp only [h1, foldl_add_const, List.length_finRange]
  norm_num

set_option linter.unnecessarySeqFocus false in
/-- Value of the source's S0 metric on the gain vector estimated in the
concrete environment from 64 unit samples. -/
theorem metrics_est_env0 :
    wlanframesync_S0_metrics (wlanframesync_estimate_gain_S0 env0 x64ones) =
      ⟨2929732129 / 2500000000, 0⟩ := by
  refine Cplx.ext ?_ ?_ <;>
    simp [wlanframesync_S0_metrics, wlanframesync_estimate_gain_S0_apply, env0, s0bins,
          s0Gain, Cplx.conj] <;>
    norm_num

set_option linter.unnecessarySeqFocus false in
/-- Value of the spec's twelve-term S0 metric on the same gain vector:
ten times larger than the source's metric. -/
theorem spec_metrics_est_env0 :
    wlanframesync_S0_metrics_spec (wlanframesync_estimate_gain_S0 env0 x64ones) =
      ⟨2929732129 / 250000000, 0⟩ := by
  refine Cplx.ext ?_ ?_ <;>
    simp [wlanframesync_S0_metrics_spec, wlanframesync_estimate_gain_S0_apply, env0, s0bins,
          s0Gain, Cplx.conj] <;>
    norm_num

/-- On the concrete run the normalized timing metric exceeds the spec's
example detection threshold `0.3` (squared: `|s_hat|^2 > 0.09`). -/
theorem shat_env0_buf0_above_threshold :
    Cplx.normSq (wlanframesync_seekplcp_s_hat env0 buf0) > 9 / 100 := by
  rw [wlanframesync_seekplcp_s_hat, window_tail64_buf0, metrics_est_env0, seekplcp_g_buf0]
  simp [Cplx.normSq, Cplx.scale]
  norm_num

/-- Pushing a sample does not change the machine state. -/
theorem wlanframesync_push_sample_state (env : WlanEnv) (q : Wlansync) (x : Cplx) :
    (wlanframesync_push_sample env q x).state = q.state := by
  unfold wlanframesync_push_sample; split <;> rfl

/-- The SEEKPLCP handler does not change the machine state. -/
theorem wlanframesync_execute_seekplcp_state (env : WlanEnv) (q : Wlansync) :
    (wlanframesync_execute_seekplcp env q).state = q.state := by
  unfold wlanframesync_execute_seekplcp; dsimp only; split <;> rfl

/-- The SEEKPLCP handler only reads the input buffer. -/
theorem wlanframesync_execute_seekplcp_buffer (env : WlanEnv) (q : Wlansync) :
    (wlanframesync_execute_seekplcp env q).input_buffer = q.input_buffer := by
  unfold wlanframesync_execute_seekplcp; dsimp only; split <;> rfl

/-- The SEEKPLCP handler never touches the NCO phase. -/
theorem wlanframesync_execute_seekplcp_nco_theta (env : WlanEnv) (q : Wlansync) :
    (wlanframesync_execute_seekplcp env q).nco_theta = q.nco_theta := by
  unfold wlanframesync_execute_seekplcp; dsimp only; split <;> rfl

/-- The SEEKPLCP handler never touches the NCO frequency. -/
theorem wlanframesync_execute_seekplcp_nco_dtheta (env : WlanEnv) (q : Wlansync) :
    (wlanframesync_execute_seekplcp env q).nco_dtheta = q.nco_dtheta := by
  unfold wlanframesync_execute_seekplcp; dsimp only; split <;> rfl

/-- The SEEKPLCP handler invokes no callback. -/
theorem wlanframesync_execute_seekplcp_ncallbacks (env : WlanEnv) (q : Wlansync) :
    (wlanframesync_execute_seekplcp env q).ncallbacks = q.ncallbacks := by
  unfold wlanframesync_execute_seekplcp; dsimp only; split <;> rfl

/-- The possibly-failing sample step always succeeds and agrees with the
total step. -/
theorem wlanframesync_step_eq (env : WlanEnv) (q : Wlansync) (x : Cplx) :
    wlanframesync_step env q x = some (wlanframesync_execute_one env q x) := by
  cases h : (wlanframesync_push_sample env q x).state <;>
    simp [wlanframesync_step, wlanframesync_execute_one, wlanframesync_dispatch, h]

/-- A single sample never changes the machine state (all handlers in the
source either have empty bodies or only touch timer and gains). -/
theorem wlanframesync_execute_one_state (env : WlanEnv) (q : Wlansync) (x : Cplx) :
    (wlanframesync_execute_one env q x).state = q.state := by
  rw [wlanframesync_execute_one, wlanframesync_step]
  rw [show (wlanframesync_push_sample env q x).state = q.state from
        wlanframesync_push_sample_state env q x]
  cases h : q.state <;>
    simp [wlanframesync_dispatch, wlanframesync_execute_seekplcp_state,
          wlanframesync_execute_rxshort0, wlanframesync_execute_rxshort1,
          wlanframesync_execute_rxlong0, wlanframesync_execute_rxlong1,
          wlanframesync_execute_rxsignal, wlanframesync_execute_rxdata,
          wlanframesync_push_sample_state, h]

/-- No code path in the source ever writes the NCO frequency. -/
theorem wlanframesync_execute_one_nco_dtheta (env : WlanEnv) (q : Wlansync) (x : Cplx) :
    (wlanframesync_execute_one env q x).nco_dtheta = q.nco_dtheta := by
  have hp : (wlanframesync_push_sample env q x).nco_dtheta = q.nco_dtheta := by
    unfold wlanframesync_push_sample; split <;> rfl
  rw [wlanframesync_execute_one, wlanframesync_step]
  cases h : (wlanframesync_push_sample env q x).state <;>
    simp [wlanframesync_dispatch, wlanframesync_execute_seekplcp_nco_dtheta,
          wlanframesync_execute_rxshort0, wlanframesync_execute_rxshort1,
          wlanframesync_execute_rxlong0, wlanframesync_execute_rxlong1,
          wlanframesync_execute_rxsignal, wlanframesync_execute_rxdata, hp]

/-- Bulk processing never changes the machine state. -/
theorem wlanframesync_execute_state (env : WlanEnv) (q : Wlansync) (xs : List Cplx) :
    (wlanframesync_execute env q xs).state = q.state := by
  induction xs generalizing q with
  | nil => rfl
  | cons x xs ih => rw [wlanframesync_execute, ih, wlanframesync_execute_one_state]

/-- Bulk processing never changes the NCO frequency. -/
theorem wlanframesync_execute_nco_dtheta (env : WlanEnv) (q : Wlansync) (xs : List Cplx) :
    (wlanframesync_execute env q xs).nco_dtheta = q.nco_dtheta := by
  induction xs generalizing q with
  | nil => rfl
  | cons x xs ih => rw [wlanframesync_execute, ih, wlanframesync_execute_one_nco_dtheta]

/-- The sample pushed by one step: raw in `SEEKPLCP`, NCO-mixed
otherwise; no handler modifies the buffer further. -/
theorem wlanframesync_execute_one_buffer (env : WlanEnv) (q : Wlansync) (x : Cplx) :
    (wlanframesync_execute_one env q x).input_buffer =
      windowcf_push q.input_buffer
        (if q.state = WlanState.SEEKPLCP then x else env.mixDown q.nco_theta x) := by
  rw [wlanframesync_execute_one, wlanframesync_step]
  cases h : q.state <;>
    simp [wlanframesync_push_sample, wlanframesync_push_sample_state, h,
          wlanframesync_dispatch, wlanframesync_execute_seekplcp_buffer,
          wlanframesync_execute_rxshort0, wlanframesync_execute_rxshort1,
          wlanframesync_execute_rxlong0, wlanframesync_execute_rxlong1,
          wlanframesync_execute_rxsignal, wlanframesync_execute_rxdata]

/-- The NCO phase after one step: stepped by the NCO frequency exactly
when the state is not `SEEKPLCP`. -/
theorem wlanframesync_execute_one_nco_theta (env : WlanEnv) (q : Wlansync) (x : Cplx) :
    (wlanframesync_execute_one env q x).nco_theta =
      (if q.state = WlanState.SEEKPLCP then q.nco_theta
       else q.nco_theta + q.nco_dtheta) := by
  rw [wlanframesync_execute_one, wlanframesync_step]
  cases h : q.state <;>
    simp [wlanframesync_push_sample, wlanframesync_push_sample_state, h,
          wlanframesync_dispatch, wlanframesync_execute_seekplcp_nco_theta,
          wlanframesync_execute_rxshort0, wlanframesync_execute_rxshort1,
          wlanframesync_execute_rxlong0, wlanframesync_execute_rxlong1,
          wlanframesync_execute_rxsignal, wlanframesync_execute_rxdata]

/-- At a 64-sample boundary in `SEEKPLCP`, the step stores into `G0a`
the gain estimated from the newest 64 samples of the (just-pushed)
window. -/
theorem wlanframesync_execute_one_G0a (env : WlanEnv) (q : Wlansync) (h63 : q.timer = 63)
    (hst : q.state = WlanState.SEEKPLCP) (x : Cplx) :
    (wlanframesync_execute_one env q x).G0a =
      wlanframesync_estimate_gain_S0 env
        (window_tail64 (windowcf_push q.input_buffer x)) := by
  rw [wlanframesync_execute_one, wlanframesync_step]
  have hp : (wlanframesync_push_sample env q x).state = WlanState.SEEKPLCP := by
    rw [wlanframesync_push_sample_state, hst]
  rw [hp]
  simp [wlanframesync_dispatch, wlanframesync_execute_seekplcp,
        wlanframesync_push_sample, hst, h63]

/-- The source's gain constant `0.054127` is `sqrt(12)/64` to within
one part in a million. -/
theorem s0Gain_near_sqrt12 : |(s0Gain : ℝ) - Real.sqrt 12 / 64| < 1 / 1000000 := by
  have h1 : (3.4641016 : ℝ) < Real.sqrt 12 := by
    rw [show (3.4641016 : ℝ) = Real.sqrt (3.4641016 ^ 2) from
          (Real.sqrt_sq (by norm_num)).symm]
    exact Real.sqrt_lt_sqrt (by positivity) (by norm_num)
  have h2 : Real.sqrt 12 < 3.4641017 := by
    rw [show (3.4641017 : ℝ) = Real.sqrt (3.4641017 ^ 2) from
          (Real.sqrt_sq (by norm_num)).symm]
    exact Real.sqrt_lt_sqrt (by norm_num) (by norm_num)
  rw [abs_sub_lt_iff]
  constructor <;> simp only [s0Gain] <;> push_cast <;> linarith

/-- The Option-threaded loop never fails and agrees with the total
loop. -/
theorem wlanframesync_execute_opt_eq (env : WlanEnv) (q : Wlansync) (xs : List Cplx) :
    wlanframesync_execute_opt env q xs = some (wlanframesync_execute env q xs) := by
  induction xs generalizing q with
  | nil => rfl
  | cons x xs ih =>
    rw [wlanframesync_execute_opt, wlanframesync_step_eq, wlanframesync_execute]
    exact ih (wlanframesync_execute_one env q x)

/-!
## Claim theorems
-/

set_option maxRecDepth 4000 in
/-- C1: the spec says that in `SEEK_PLCP`, whenever the detection
criterion holds (`|s_hat|` above the detection threshold, e.g. `0.3`,
with the squelch compile-time disabled in the source), the synchronizer
transitions to `RX_SHORT0`, stores a coarse CFO estimate and arms the
NCO.  The source does none of this: for every environment and every
input stream a synchronizer starting from reset stays in `SEEKPLCP`
forever; and on the concrete run (`env0`, 64 unit samples from a fresh
object) the inspected window is `buf0`, the criterion holds
(`|s_hat|^2 > 0.09`), yet the state is still `SEEKPLCP` and the NCO
frequency was never armed. -/
theorem claim_C1_seekplcp_never_transitions :
    (∀ (env : WlanEnv) (q : Wlansync) (xs : List Cplx),
        (wlanframesync_execute env (wlanframesync_reset q) xs).state =
          WlanState.SEEKPLCP)
    ∧ Cplx.normSq (wlanframesync_seekplcp_s_hat env0 buf0) > 9 / 100
    ∧ (wlanframesync_execute env0 wlanframesync_create ones64).input_buffer = buf0
    ∧ (wlanframesync_execute env0 wlanframesync_create ones64).state = WlanState.SEEKPLCP
    ∧ (wlanframesync_execute env0 wlanframesync_create ones64).nco_dtheta = 0 :=
  ⟨fun env q xs => by rw [wlanframesync_execute_state]; rfl,
   shat_env0_buf0_above_threshold,
   by decide,
   by rw [wlanframesync_execute_state]; rfl,
   by rw [wlanframesync_execute_nco_dtheta]; rfl⟩

/-- C2 counterexample: the claim says the metric `s_hat` equals the
twelve-term sum `Σ G0[k+4]·conj(G0[k])`.  On the gain vector estimated
in the concrete environment from 64 unit samples, the source's metric is
`1.17189...` while the twelve-term sum is `11.7189...`: they differ (the
source accumulates ten products and scales by `0.1`). -/
theorem claim_C2_counterexample :
    wlanframesync_S0_metrics (wlanframesync_estimate_gain_S0 env0 x64ones) =
        ⟨2929732129 / 2500000000, 0⟩
    ∧ wlanframesync_S0_metrics_spec (wlanframesync_estimate_gain_S0 env0 x64ones) =
        ⟨2929732129 / 250000000, 0⟩
    ∧ wlanframesync_S0_metrics (wlanframesync_estimate_gain_S0 env0 x64ones) ≠
        wlanframesync_S0_metrics_spec (wlanframesync_estimate_gain_S0 env0 x64ones) := by
  refine ⟨metrics_est_env0, spec_metrics_est_env0, ?_⟩
  rw [metrics_est_env0, spec_metrics_est_env0]
  intro h
  have := congrArg Cplx.re h
  norm_num at this

set_option linter.unnecessarySeqFocus false in
/-- C2 amended: on every gain vector produced by the estimator, the
source's `s_hat` equals `0.1` times the twelve-bin wrapped sum — the two
products reaching across the clusters land on the null bins 28 and 0
where the estimated gain vanishes, so only ten products contribute, and
the accumulated sum is scaled by `0.1`. -/
theorem claim_C2_amended (env : WlanEnv) (x : Fin 64 → Cplx) :
    wlanframesync_S0_metrics (wlanframesync_estimate_gain_S0 env x) =
      (wlanframesync_S0_metrics_spec (wlanframesync_estimate_gain_S0 env x)).scale
        (1 / 10) := by
  refine Cplx.ext ?_ ?_ <;>
    simp [wlanframesync_S0_metrics, wlanframesync_S0_metrics_spec,
          wlanframesync_estimate_gain_S0_apply, s0bins] <;>
    ring

/-- C3: the short-sequence gain estimate: each of the twelve non-null S0
bins `k` carries `X[k]·conj(S0[k])·gain` where `X` is the DFT output,
all other bins are zero; at a 64-sample boundary in `SEEKPLCP` the `X`
fed to the estimator is the DFT of the 64 buffered samples at positions
`[16..80)` of the window; and the gain constant is `sqrt(12)/64` to
within `1e-6` (the source hard-codes the rounding `0.054127`). -/
theorem claim_C3_estimate_gain_S0 :
    (∀ (env : WlanEnv) (x : Fin 64 → Cplx) (k : Fin 64),
        wlanframesync_estimate_gain_S0 env x k =
          if k ∈ s0bins then env.dft x k * (env.S0 k).conj * ⟨s0Gain, 0⟩ else 0)
    ∧ (∀ (env : WlanEnv) (q : Wlansync), q.timer = 63 → q.state = WlanState.SEEKPLCP →
        ∀ x : Cplx,
          (wlanframesync_execute_one env q x).G0a =
            wlanframesync_estimate_gain_S0 env
              (window_tail64 (windowcf_push q.input_buffer x)))
    ∧ |(s0Gain : ℝ) - Real.sqrt 12 / 64| < 1 / 1000000 :=
  ⟨wlanframesync_estimate_gain_S0_apply,
   fun env q h63 hst x => wlanframesync_execute_one_G0a env q h63 hst x,
   s0Gain_near_sqrt12⟩

/-- C3 witness: the hypotheses of the boundary statement are satisfied
by the concrete synchronizer `syncT` (timer 63, state `SEEKPLCP`). -/
theorem claim_C3_estimate_gain_S0_witness :
    (syncT.timer = 63 ∧ syncT.state = WlanState.SEEKPLCP)
    ∧ (wlanframesync_execute_one env0 syncT 0).G0a =
        wlanframesync_estimate_gain_S0 env0
          (window_tail64 (windowcf_push syncT.input_buffer 0)) :=
  ⟨⟨rfl, rfl⟩, claim_C3_estimate_gain_S0.2.1 env0 syncT rfl rfl 0⟩

/-- C4: the bulk-push entry point is sample-wise: running it on a
concatenation equals running it on the pieces in order, and running it
on any buffer is the left fold of the single-sample step. -/
theorem claim_C4_execute_concat :
    (∀ (env : WlanEnv) (q : Wlansync) (a b : List Cplx),
        wlanframesync_execute env q (a ++ b) =
          wlanframesync_execute env (wlanframesync_execute env q a) b)
    ∧ (∀ (env : WlanEnv) (q : Wlansync) (xs : List Cplx),
        wlanframesync_execute env q xs = xs.foldl (wlanframesync_execute_one env) q) := by
  constructor
  · intro env q a b
    induction a generalizing q with
    | nil => rfl
    | cons x xs ih =>
      rw [List.cons_append, wlanframesync_execute, wlanframesync_execute, ih]
  · intro env q xs
    induction xs generalizing q with
    | nil => rfl
    | cons x xs ih => rw [wlanframesync_execute, List.foldl_cons, ih]

/-- C5: each processed sample is NCO-mixed (and the NCO phase stepped by
the NCO frequency) before being buffered exactly when the state is not
`SEEKPLCP`; in `SEEKPLCP` the raw sample is buffered and the NCO phase
is untouched. -/
theorem claim_C5_mix_iff_not_seekplcp (env : WlanEnv) (q : Wlansync) (x : Cplx) :
    (wlanframesync_execute_one env q x).input_buffer =
        windowcf_push q.input_buffer
          (if q.state = WlanState.SEEKPLCP then x else env.mixDown q.nco_theta x)
    ∧ (wlanframesync_execute_one env q x).nco_theta =
        (if q.state = WlanState.SEEKPLCP then q.nco_theta
         else q.nco_theta + q.nco_dtheta) :=
  ⟨wlanframesync_execute_one_buffer env q x, wlanframesync_execute_one_nco_theta env q x⟩

/-- C6: the spec says re-entry to `SEEK_PLCP` (in particular
`wlanframesync_reset`) zeroes the NCO frequency and phase.  The source's
reset returns to `SEEKPLCP` but leaves both NCO fields untouched: on a
synchronizer whose NCO carries phase 1 and frequency 1, both survive the
reset and the phase is not zero. -/
theorem claim_C6_reset_leaves_nco :
    (∀ q : Wlansync,
        (wlanframesync_reset q).state = WlanState.SEEKPLCP
        ∧ (wlanframesync_reset q).nco_theta = q.nco_theta
        ∧ (wlanframesync_reset q).nco_dtheta = q.nco_dtheta)
    ∧ (wlanframesync_reset syncN).nco_theta = 1
    ∧ (wlanframesync_reset syncN).nco_dtheta = 1
    ∧ (wlanframesync_reset syncN).nco_theta ≠ 0 :=
  ⟨fun q => ⟨rfl, rfl, rfl⟩, rfl, rfl, by norm_num [wlanframesync_reset, syncN]⟩

/-- C7: reset discards in-progress frame state: the input window is
cleared, the sample timer zeroed, the object is left in `SEEKPLCP`, and
no user callback is invoked during the reset. -/
theorem claim_C7_reset_discards (q : Wlansync) :
    (wlanframesync_reset q).input_buffer = List.replicate 80 0
    ∧ (wlanframesync_reset q).state = WlanState.SEEKPLCP
    ∧ (wlanframesync_reset q).timer = 0
    ∧ (wlanframesync_reset q).ncallbacks = q.ncallbacks :=
  ⟨rfl, rfl, rfl, rfl⟩

/-- C8: the per-sample path never fails: every one of the seven
enumerated states selects a handler in the dispatch switch, so the fatal
invalid-state branch (`none`, the C error print and `exit(1)`) is
unreachable, and the Option-threaded execution always succeeds. -/
theorem claim_C8_dispatch_total :
    (∀ s : WlanState, (wlanframesync_dispatch s).isSome = true)
    ∧ (∀ (env : WlanEnv) (q : Wlansync) (xs : List Cplx),
        wlanframesync_execute_opt env q xs = some (wlanframesync_execute env q xs)) :=
  ⟨fun s => by cases s <;> rfl, wlanframesync_execute_opt_eq⟩

/-- C9: the Annex G Table G.3 time-domain short-training reference array
has 64 entries, is the fourfold repetition of one 16-sample period, and
hence entry `i` equals entry `i + 16` for every `i` in `[0, 48)`. -/
theorem claim_C9_annexg_G3_period16 :
    annexg_G3.length = 64
    ∧ annexg_G3 =
        annexg_G3_period ++ (annexg_G3_period ++ (annexg_G3_period ++ annexg_G3_period))
    ∧ ∀ i : Fin 48, annexg_G3.getD i.val 0 = annexg_G3.getD (i.val + 16) 0 :=
  ⟨rfl, rfl, fun i => by fin_cases i <;> rfl⟩

/-- C10: the public accessors `wlanframesync_get_rssi` and
`wlanframesync_get_cfo` return exactly zero for every synchronizer
object, whatever samples have been processed. -/
theorem claim_C10_accessors_zero (q : Wlansync) :
    wlanframesync_get_rssi q = 0
    ∧ wlanframesync_get_cfo q = 0
    ∧ ∀ (env : WlanEnv) (xs : List Cplx),
        wlanframesync_get_rssi (wlanframesync_execute env q xs) = 0
        ∧ wlanframesync_get_cfo (wlanframesync_execute env q xs) = 0 :=
  ⟨rfl, rfl, fun _ _ => ⟨rfl, rfl⟩⟩
